import Mathlib

/-!
Verification development for the input layer of the notty terminal emulator.

The development shallowly embeds the three source files of the repository:
`src/datatypes/key.rs` (the key-to-escape-sequence encoder), `src/datatypes/mod.rs`
(the `InputMode` datatype) and `src/terminal/mod.rs` (the session dispatcher and the
screen-buffer lifecycle).  Rust `Option<String>` becomes `Option String`; the two
fatal macros `unreachable!()` and `unimplemented!()` that the encoder may hit are
made explicit as the error side of an `Except`, so that a panic is distinguishable
from the legitimate "no encoding" result `Option.none`.
-/

namespace Notty

/-- `InputMode` from `src/datatypes/mod.rs`: the mode the input processor is in. -/
inductive InputMode
  | Ansi
  | Application
  | Extended
  deriving DecidableEq

/-- The two fatal outcomes the encoder can raise: the `unreachable!()` branch for bare
modifier keys, and the `unimplemented!()` placeholders (Extended mode, num-lock,
scroll-lock, function keys). -/
inductive Fault
  | unreachableBranch
  | notYetImplemented
  deriving DecidableEq

instance {ε α : Type} [DecidableEq ε] [DecidableEq α] : DecidableEq (Except ε α) := fun x y =>
  match x, y with
  | .ok a, .ok b =>
    if h : a = b then .isTrue (by rw [h]) else .isFalse (by simp [h])
  | .error e, .error f =>
    if h : e = f then .isTrue (by rw [h]) else .isFalse (by simp [h])
  | .ok _, .error _ => .isFalse (by simp)
  | .error _, .ok _ => .isFalse (by simp)

/-- `Modifiers` from `src/datatypes/key.rs`. -/
structure Modifiers where
  shift : Bool
  caps : Bool
  ctrl : Bool
  alt : Bool
  deriving DecidableEq

/-- `Modifiers::new` from `src/datatypes/key.rs`. -/
def Modifiers.new : Modifiers :=
  { shift := false, caps := false, ctrl := false, alt := false }

/-- `Modifiers::triplet` from `src/datatypes/key.rs`: caps-lock folded into shift. -/
def Modifiers.triplet (m : Modifiers) : Bool × Bool × Bool :=
  (m.shift || m.caps, m.ctrl, m.alt)

/-- `Key` from `src/datatypes/key.rs`, extended by the four variants that
`src/terminal/mod.rs` pattern-matches on (`DownArrow`, `UpArrow`, `Enter`,
`MenuSelection`) but whose declarations are not among the included sources;
those four are modelled from the spec (§9: the Enter/confirm key and the
synthesized "selection N" event are to be added to the closed key taxonomy). -/
inductive Key
  | Char : Bool → Char → Key
  | Up : Bool → Key
  | Down : Bool → Key
  | Left : Bool → Key
  | Right : Bool → Key
  | ShiftLeft : Bool → Key
  | ShiftRight : Bool → Key
  | CtrlLeft : Bool → Key
  | CtrlRight : Bool → Key
  | AltLeft : Bool → Key
  | AltRight : Bool → Key
  | MetaLeft : Bool → Key
  | MetaRight : Bool → Key
  | PageUp : Bool → Key
  | PageDown : Bool → Key
  | Home : Bool → Key
  | End : Bool → Key
  | Insert : Bool → Key
  | Delete : Bool → Key
  | CapsLock : Bool → Key
  | NumLock : Bool → Key
  | ScrollLock : Bool → Key
  | Function : Bool → Nat → Key
  | Cmd : String → Key
  | DownArrow : Key
  | UpArrow : Key
  | Enter : Key
  | MenuSelection : Nat → Key
  deriving DecidableEq

/-- `char_key` from `src/datatypes/key.rs`.  The Rust range pattern
`'\x40'...'\x7f'` is inclusive at both ends; `(c as u8) & 0b00011111` becomes
`Char.ofNat (c.toNat &&& 0x1f)`. -/
def char_key (modifiers : Modifiers) (c : Char) : Option String :=
  match modifiers.ctrl, modifiers.alt with
  | false, false => some c.toString
  | true, false =>
    if 0x40 ≤ c.toNat ∧ c.toNat ≤ 0x7f then
      some (Char.ofNat (c.toNat &&& 0x1f)).toString
    else
      none
  | false, true => some ("\x1b".push c)
  | true, true =>
    if 0x40 ≤ c.toNat ∧ c.toNat ≤ 0x7f then
      some ("\x1b".push (Char.ofNat (c.toNat &&& 0x1f)))
    else
      none

/-- `term_key` from `src/datatypes/key.rs`: the cursor-key table. -/
def term_key (modifiers : Modifiers) (term : Char) (ansi : Bool) : Option String :=
  match modifiers.triplet, ansi with
  | (false, false, false), true  => some ("\x1b[".push term)
  | (false, false, false), false => some ("\x1bO".push term)
  | (true,  false, false), _     => some ("\x1b[1;2".push term)
  | (false, false, true),  _     => some ("\x1b[1;3".push term)
  | (true,  false, true),  _     => some ("\x1b[1;4".push term)
  | (false, true,  false), _     => some ("\x1b[1;5".push term)
  | (true,  true,  false), _     => some ("\x1b[1;6".push term)
  | (false, true,  true),  _     => some ("\x1b[1;7".push term)
  | (true,  true,  true),  _     => some ("\x1b[1;8".push term)

/-- `tilde_key` from `src/datatypes/key.rs`: the tilde-sequence table. -/
def tilde_key (modifiers : Modifiers) (init : Char) : Option String :=
  match modifiers.triplet with
  | (false, false, false) => some ("\x1b[" ++ init.toString ++ "~")
  | (true,  false, false) => some ("\x1b[" ++ init.toString ++ ";2~")
  | (false, false, true)  => some ("\x1b[" ++ init.toString ++ ";3~")
  | (true,  false, true)  => some ("\x1b[" ++ init.toString ++ ";4~")
  | (false, true,  false) => some ("\x1b[" ++ init.toString ++ ";5~")
  | (true,  true,  false) => some ("\x1b[" ++ init.toString ++ ";6~")
  | (false, true,  true)  => some ("\x1b[" ++ init.toString ++ ";7~")
  | (true,  true,  true)  => some ("\x1b[" ++ init.toString ++ ";8~")

/-- `Key::compatible_code` from `src/datatypes/key.rs`.  The `unreachable!()`
and `unimplemented!()` panics are the `Except.error` side. -/
def Key.compatible_code (key : Key) (modifiers : Modifiers) (ansi : Bool) :
    Except Fault (Option String) :=
  match key with
  | .Char true c => .ok (char_key modifiers c)
  | .Cmd s => .ok (some s)
  | .Up true => .ok (term_key modifiers 'A' ansi)
  | .Down true => .ok (term_key modifiers 'B' ansi)
  | .Left true => .ok (term_key modifiers 'D' ansi)
  | .Right true => .ok (term_key modifiers 'C' ansi)
  | .ShiftLeft _ | .ShiftRight _
  | .CtrlLeft _ | .CtrlRight _
  | .AltLeft _ | .AltRight _
  | .CapsLock _ => .error .unreachableBranch
  | .MetaLeft true | .MetaRight true => .ok none
  | .PageUp true => .ok (tilde_key modifiers '5')
  | .PageDown true => .ok (tilde_key modifiers '6')
  | .Home true => .ok (term_key modifiers 'H' true)
  | .End true => .ok (term_key modifiers 'F' true)
  | .Insert true => .ok (tilde_key modifiers '2')
  | .Delete true => .ok (tilde_key modifiers '3')
  | .NumLock _ => .error .notYetImplemented
  | .ScrollLock _ => .error .notYetImplemented
  | .Function _ _ => .error .notYetImplemented
  | _ => .ok none

/-- `Key::extended_code` from `src/datatypes/key.rs`: `unimplemented!()` for
every key. -/
def Key.extended_code (_key : Key) (_modifiers : Modifiers) :
    Except Fault (Option String) :=
  .error .notYetImplemented

/-- `Key::as_code` from `src/datatypes/key.rs`: top-level dispatch by mode. -/
def Key.as_code (key : Key) (mode : InputMode) (modifiers : Modifiers) :
    Except Fault (Option String) :=
  match mode with
  | .Ansi => key.compatible_code modifiers true
  | .Application => key.compatible_code modifiers false
  | .Extended => key.extended_code modifiers

/-- Modelled from the spec: the character grid (`src/terminal/char_grid.rs` is not
among the included sources; the spec §3 treats it as an external collaborator with
visible dimensions, per-buffer scroll flags and cell contents).  `cells` is an
abstract stand-in for the grid's cell storage, which the spec leaves opaque. -/
structure CharGrid where
  width : Nat
  height : Nat
  scroll_x : Bool
  scroll_y : Bool
  cells : List (List Char)
  deriving DecidableEq

/-- Modelled from the spec: `CharGrid::new` allocates a fresh (blank) buffer of the
given dimensions and scroll flags (§3 "Push buffer creates a fresh buffer sized to
the current dimensions, with caller-chosen horizontal/vertical scroll behavior"). -/
def CharGrid.new (width height : Nat) (scroll_x scroll_y : Bool) : CharGrid :=
  { width := width, height := height, scroll_x := scroll_x, scroll_y := scroll_y,
    cells := [] }

/-- Modelled from the spec: resizing a grid mutates its recorded height (§4.3). -/
def CharGrid.set_height (g : CharGrid) (rows : Nat) : CharGrid :=
  { g with height := rows }

/-- Modelled from the spec: resizing a grid mutates its recorded width (§4.3). -/
def CharGrid.set_width (g : CharGrid) (cols : Nat) : CharGrid :=
  { g with width := cols }

/-- Modelled from the spec: the interactive widget (`src/terminal/tooltip.rs` is not
among the included sources).  `Menu` carries its `interact` behavior, per the §6
contract `interact(key) -> result<selection_index, bool>`; `Basic` stands for the
non-menu tooltip states, which never interact. -/
inductive Tooltip
  | Menu : (Key → Except Bool Nat) → Tooltip
  | Basic : Tooltip

/-- Modelled from the spec: `Tooltip::interact` returns a selection index when the
menu consumes the key, `error true` for "not consumed, please forward", and
`error false` for "consumed, nothing to forward" (§6). -/
def Tooltip.interact (t : Tooltip) (key : Key) : Except Bool Nat :=
  match t with
  | .Menu f => f key
  | .Basic => .error true

/-- `Terminal` from `src/terminal/mod.rs`, restricted to the fields the claims
touch: the active buffer, the saved (inactive) stack — the end of the Rust `Vec`
is the head of the list — the recorded dimensions and the title.  The transport
(`tty`) is modelled separately as `InputState`, and writes as a returned trace. -/
structure Terminal where
  width : Nat
  height : Nat
  title : String
  active : CharGrid
  inactive : List CharGrid
  deriving DecidableEq

/-- `Terminal::send_input` from `src/terminal/mod.rs`, with the widget at the
current cursor position passed in as `tooltip` (the grid/cursor lookup
`tooltip_at_mut(cursor)` lives in the excluded grid module) and the transport
writes returned as a trace of `(key, press)` pairs in order. -/
def Terminal.send_input (tooltip : Option Tooltip) (key : Key) (press : Bool) :
    List (Key × Bool) :=
  match key with
  | .DownArrow | .UpArrow | .Enter =>
    if press then
      match
        (match tooltip with
         | some (Tooltip.Menu f) => Tooltip.interact (Tooltip.Menu f) key
         | _ => .error true) with
      | .ok n => [(.MenuSelection n, true)]
      | .error true => [(key, press)]
      | .error false => []
    else [(key, press)]
  | _ => [(key, press)]

/-- `Terminal::push_buffer` from `src/terminal/mod.rs`: build a fresh grid at the
current dimensions, swap it with the active one, push the old active buffer. -/
def Terminal.push_buffer (t : Terminal) (scroll_x scroll_y : Bool) : Terminal :=
  { t with active := CharGrid.new t.width t.height scroll_x scroll_y,
           inactive := t.active :: t.inactive }

/-- `Terminal::pop_buffer` from `src/terminal/mod.rs`: reinstall the most recently
saved buffer if any, else no-op. -/
def Terminal.pop_buffer (t : Terminal) : Terminal :=
  match t.inactive with
  | grid :: rest => { t with active := grid, inactive := rest }
  | [] => t

/-- `Terminal::set_visible_height` from `src/terminal/mod.rs`. -/
def Terminal.set_visible_height (t : Terminal) (rows : Nat) : Terminal :=
  { t with active := t.active.set_height rows, height := rows }

/-- `Terminal::set_visible_width` from `src/terminal/mod.rs`. -/
def Terminal.set_visible_width (t : Terminal) (cols : Nat) : Terminal :=
  { t with active := t.active.set_width cols, width := cols }

/-- The transport's mutable state: the negotiated input mode and the modifier
record it tracks (`src/terminal/input.rs` is not among the included sources). -/
structure InputState where
  mode : InputMode
  modifiers : Modifiers

/-- Modelled from the spec: the transport's `write(key, press)` operation
(`src/terminal/input.rs` is not among the included sources).  Per §6 it performs
encoding-then-send as one operation; per §4.1 the bare modifier-key events
(shift/ctrl/alt left or right, caps-lock) have been filtered before the
compatible-encoding stage — they only update the tracked modifier record and are
never handed to the encoder.  Returns the updated state and the encoder outcome
(`ok none` when nothing is sent). -/
def InputState.write (st : InputState) (key : Key) (press : Bool) :
    InputState × Except Fault (Option String) :=
  match key with
  | .ShiftLeft _ | .ShiftRight _ =>
    ({ st with modifiers := { st.modifiers with shift := press } }, .ok none)
  | .CtrlLeft _ | .CtrlRight _ =>
    ({ st with modifiers := { st.modifiers with ctrl := press } }, .ok none)
  | .AltLeft _ | .AltRight _ =>
    ({ st with modifiers := { st.modifiers with alt := press } }, .ok none)
  | .CapsLock _ =>
    ({ st with modifiers := { st.modifiers with caps := press } }, .ok none)
  | _ => (st, key.as_code st.mode st.modifiers)

/-- Run a trace of transport writes in order, collecting each write's outcome. -/
def InputState.writeAll (st : InputState) :
    List (Key × Bool) → InputState × List (Except Fault (Option String))
  | [] => (st, [])
  | (k, p) :: rest =>
    let (st1, r) := st.write k p
    let (st2, rs) := st1.writeAll rest
    (st2, r :: rs)

/-- The outcomes of the transport writes that one `send_input` call performs:
the dispatcher's trace fed through the transport. -/
def dispatchResults (st : InputState) (tooltip : Option Tooltip) (key : Key)
    (press : Bool) : List (Except Fault (Option String)) :=
  (st.writeAll (Terminal.send_input tooltip key press)).2

/-- The modifier-number column of the §4.1 tables, as the spec words it: `n` runs
2..8 over the triplets (T,F,F),(F,F,T),(T,F,T),(F,T,F),(T,T,F),(F,T,T),(T,T,T);
no modifier means no number. -/
def modifierNumber : Bool × Bool × Bool → Option Nat
  | (false, false, false) => none
  | (true,  false, false) => some 2
  | (false, false, true)  => some 3
  | (true,  false, true)  => some 4
  | (false, true,  false) => some 5
  | (true,  true,  false) => some 6
  | (false, true,  true)  => some 7
  | (true,  true,  true)  => some 8

/-- The §4.1 cursor-key table as the spec words it: `ESC [ T` (ansi flavor) or
`ESC O T` (application flavor) with no modifiers, else `ESC [ 1 ; n T`
identically in both flavors. -/
def cursorKeySpec (m : Modifiers) (T : Char) (ansiFlavor : Bool) : String :=
  match modifierNumber m.triplet with
  | none => (if ansiFlavor then "\x1b[" else "\x1bO") ++ T.toString
  | some n => "\x1b[1;" ++ toString n ++ T.toString

/-- The §4.1 tilde table as the spec words it: `ESC [ D ~` with no modifiers,
else `ESC [ D ; n ~` with the same modifier numbers. -/
def tildeSpec (m : Modifiers) (D : Char) : String :=
  match modifierNumber m.triplet with
  | none => "\x1b[" ++ D.toString ++ "~"
  | some n => "\x1b[" ++ D.toString ++ ";" ++ toString n ++ "~"

/-- The §4.1 wire-format condition: every character is 7-bit ASCII, none is NUL,
and ESC (0x1b) occurs at most as the single leading character. -/
def wireClean (s : String) : Bool :=
  s.data.all (fun c => decide (c.toNat < 0x80) && decide (c.toNat ≠ 0)) &&
  (s.data.drop 1).all (fun c => decide (c.toNat ≠ 0x1b))

/-- The wire-format condition on an encoder outcome: trivially holds when
nothing is emitted. -/
def wireCleanOutcome : Except Fault (Option String) → Bool
  | .ok (some s) => wireClean s
  | .ok none => true
  | .error _ => true

end Notty

namespace Notty

/-- C1: for every press of Up, Down, Left, Right, Home, or End in Ansi or
Application mode and every modifier triplet, the encoding matches the §4.1
cursor-key table byte for byte — terminators A/B/D/C for Up/Down/Left/Right and
H/F for Home/End, `ESC [ T` (ansi) / `ESC O T` (application) with no modifiers,
`ESC [ 1 ; n T` with `n` in 2..8 over the triplets identically in both modes,
and Home/End always on the ansi flavor regardless of the declared mode. -/
theorem cursor_keys_match_spec_table :
    ∀ (s ca ct al : Bool),
      Key.as_code (.Up true) .Ansi ⟨s, ca, ct, al⟩
          = .ok (some (cursorKeySpec ⟨s, ca, ct, al⟩ 'A' true)) ∧
      Key.as_code (.Up true) .Application ⟨s, ca, ct, al⟩
          = .ok (some (cursorKeySpec ⟨s, ca, ct, al⟩ 'A' false)) ∧
      Key.as_code (.Down true) .Ansi ⟨s, ca, ct, al⟩
          = .ok (some (cursorKeySpec ⟨s, ca, ct, al⟩ 'B' true)) ∧
      Key.as_code (.Down true) .Application ⟨s, ca, ct, al⟩
          = .ok (some (cursorKeySpec ⟨s, ca, ct, al⟩ 'B' false)) ∧
      Key.as_code (.Left true) .Ansi ⟨s, ca, ct, al⟩
          = .ok (some (cursorKeySpec ⟨s, ca, ct, al⟩ 'D' true)) ∧
      Key.as_code (.Left true) .Application ⟨s, ca, ct, al⟩
          = .ok (some (cursorKeySpec ⟨s, ca, ct, al⟩ 'D' false)) ∧
      Key.as_code (.Right true) .Ansi ⟨s, ca, ct, al⟩
          = .ok (some (cursorKeySpec ⟨s, ca, ct, al⟩ 'C' true)) ∧
      Key.as_code (.Right true) .Application ⟨s, ca, ct, al⟩
          = .ok (some (cursorKeySpec ⟨s, ca, ct, al⟩ 'C' false)) ∧
      Key.as_code (.Home true) .Ansi ⟨s, ca, ct, al⟩
          = .ok (some (cursorKeySpec ⟨s, ca, ct, al⟩ 'H' true)) ∧
      Key.as_code (.Home true) .Application ⟨s, ca, ct, al⟩
          = .ok (some (cursorKeySpec ⟨s, ca, ct, al⟩ 'H' true)) ∧
      Key.as_code (.End true) .Ansi ⟨s, ca, ct, al⟩
          = .ok (some (cursorKeySpec ⟨s, ca, ct, al⟩ 'F' true)) ∧
      Key.as_code (.End true) .Application ⟨s, ca, ct, al⟩
          = .ok (some (cursorKeySpec ⟨s, ca, ct, al⟩ 'F' true)) := by
  decide

/-- C3: for every press of Page-up, Page-down, Insert, or Delete in Ansi or
Application mode, the encoding is the §4.1 tilde sequence with leading digit
5, 6, 2, 3 respectively: `ESC [ D ~` with no modifiers, `ESC [ D ; n ~` with
`n` in 2..8 over the triplets, in particular `;2` before the `~` with shift. -/
theorem tilde_keys_match_spec_table :
    ∀ (s ca ct al : Bool),
      Key.as_code (.PageUp true) .Ansi ⟨s, ca, ct, al⟩
          = .ok (some (tildeSpec ⟨s, ca, ct, al⟩ '5')) ∧
      Key.as_code (.PageUp true) .Application ⟨s, ca, ct, al⟩
          = .ok (some (tildeSpec ⟨s, ca, ct, al⟩ '5')) ∧
      Key.as_code (.PageDown true) .Ansi ⟨s, ca, ct, al⟩
          = .ok (some (tildeSpec ⟨s, ca, ct, al⟩ '6')) ∧
      Key.as_code (.PageDown true) .Application ⟨s, ca, ct, al⟩
          = .ok (some (tildeSpec ⟨s, ca, ct, al⟩ '6')) ∧
      Key.as_code (.Insert true) .Ansi ⟨s, ca, ct, al⟩
          = .ok (some (tildeSpec ⟨s, ca, ct, al⟩ '2')) ∧
      Key.as_code (.Insert true) .Application ⟨s, ca, ct, al⟩
          = .ok (some (tildeSpec ⟨s, ca, ct, al⟩ '2')) ∧
      Key.as_code (.Delete true) .Ansi ⟨s, ca, ct, al⟩
          = .ok (some (tildeSpec ⟨s, ca, ct, al⟩ '3')) ∧
      Key.as_code (.Delete true) .Application ⟨s, ca, ct, al⟩
          = .ok (some (tildeSpec ⟨s, ca, ct, al⟩ '3')) ∧
      Key.as_code (.PageUp true) .Ansi ⟨true, false, false, false⟩
          = .ok (some "\x1b[5;2~") := by
  decide

/-- C2: a printable-character press in either compatible mode encodes by the §4.1
character table: the character itself with no ctrl/alt; with ctrl, `c & 0x1F`
when `0x40 ≤ c < 0x80` and nothing otherwise; with alt, ESC then the character;
with ctrl and alt, ESC then the masked byte under the same range rule.  In
particular Ctrl+'A' gives 0x01, Ctrl+'?' gives no result, Alt+'a' gives ESC a,
and Ctrl+Alt+'A' gives ESC 0x01. -/
theorem char_encoding_matches_spec_table :
    (∀ (m : Modifiers) (c : Char),
      Key.as_code (.Char true c) .Ansi m = .ok (char_key m c) ∧
      Key.as_code (.Char true c) .Application m = .ok (char_key m c)) ∧
    (∀ (s ca : Bool) (c : Char),
      char_key ⟨s, ca, false, false⟩ c = some c.toString ∧
      char_key ⟨s, ca, true, false⟩ c
        = (if 0x40 ≤ c.toNat ∧ c.toNat < 0x80
           then some (Char.ofNat (c.toNat &&& 0x1f)).toString else none) ∧
      char_key ⟨s, ca, false, true⟩ c = some ("\x1b".push c) ∧
      char_key ⟨s, ca, true, true⟩ c
        = (if 0x40 ≤ c.toNat ∧ c.toNat < 0x80
           then some ("\x1b".push (Char.ofNat (c.toNat &&& 0x1f))) else none)) ∧
    (Key.as_code (.Char true 'A') .Ansi ⟨false, false, true, false⟩
        = .ok (some "\x01") ∧
     Key.as_code (.Char true '?') .Ansi ⟨false, false, true, false⟩ = .ok none ∧
     Key.as_code (.Char true 'a') .Ansi ⟨false, false, false, true⟩
        = .ok (some "\x1ba") ∧
     Key.as_code (.Char true 'A') .Ansi ⟨false, false, true, true⟩
        = .ok (some "\x1b\x01")) := by
  refine ⟨fun m c => ⟨rfl, rfl⟩, fun s ca c => ?_, by decide⟩
  have hiff : (0x40 ≤ c.toNat ∧ c.toNat < 0x80) ↔ (0x40 ≤ c.toNat ∧ c.toNat ≤ 0x7f) := by
    omega
  by_cases h : 0x40 ≤ c.toNat ∧ c.toNat ≤ 0x7f
  · have h2 : 0x40 ≤ c.toNat ∧ c.toNat < 0x80 := hiff.mpr h
    exact ⟨rfl, by simp [char_key, h, h2], rfl, by simp [char_key, h, h2]⟩
  · have h2 : ¬(0x40 ≤ c.toNat ∧ c.toNat < 0x80) := fun hx => h (hiff.mp hx)
    exact ⟨rfl, by simp [char_key, h, h2], rfl, by simp [char_key, h, h2]⟩

/-- C10: the character encoding depends only on the ctrl and alt flags — any two
modifier states agreeing on ctrl and alt give identical results for every
character, press flag, and compatible mode; in particular Shift plus a
character with no ctrl/alt encodes to the character itself, unshifted. -/
theorem char_encoding_ignores_shift_and_caps :
    ∀ (s1 ca1 s2 ca2 ct al press : Bool) (c : Char),
      Key.as_code (.Char press c) .Ansi ⟨s1, ca1, ct, al⟩
          = Key.as_code (.Char press c) .Ansi ⟨s2, ca2, ct, al⟩ ∧
      Key.as_code (.Char press c) .Application ⟨s1, ca1, ct, al⟩
          = Key.as_code (.Char press c) .Application ⟨s2, ca2, ct, al⟩ ∧
      Key.as_code (.Char true c) .Ansi ⟨true, false, false, false⟩
          = .ok (some c.toString) ∧
      Key.as_code (.Char true c) .Application ⟨true, false, false, false⟩
          = .ok (some c.toString) := by
  intro s1 ca1 s2 ca2 ct al press c
  cases press
  · exact ⟨rfl, rfl, rfl, rfl⟩
  · cases ct <;> cases al <;> exact ⟨rfl, rfl, rfl, rfl⟩

/-- C5: the three outcomes stay distinguishable — in the compatible modes,
releases of character, directional, and navigation keys, and Meta presses,
give the empty result `ok none`; Extended mode for every key, and num-lock /
scroll-lock / function keys in the compatible modes, give the explicit fatal
outcome, which is never the same value as the empty result. -/
theorem encoder_outcomes_distinguishable :
    ∀ (m : Modifiers) (c : Char) (i : Nat) (b : Bool),
      (Key.as_code (.Char false c) .Ansi m = .ok none ∧
       Key.as_code (.Char false c) .Application m = .ok none ∧
       Key.as_code (.Up false) .Ansi m = .ok none ∧
       Key.as_code (.Up false) .Application m = .ok none ∧
       Key.as_code (.Down false) .Ansi m = .ok none ∧
       Key.as_code (.Down false) .Application m = .ok none ∧
       Key.as_code (.Left false) .Ansi m = .ok none ∧
       Key.as_code (.Left false) .Application m = .ok none ∧
       Key.as_code (.Right false) .Ansi m = .ok none ∧
       Key.as_code (.Right false) .Application m = .ok none ∧
       Key.as_code (.PageUp false) .Ansi m = .ok none ∧
       Key.as_code (.PageUp false) .Application m = .ok none ∧
       Key.as_code (.PageDown false) .Ansi m = .ok none ∧
       Key.as_code (.PageDown false) .Application m = .ok none ∧
       Key.as_code (.Home false) .Ansi m = .ok none ∧
       Key.as_code (.Home false) .Application m = .ok none ∧
       Key.as_code (.End false) .Ansi m = .ok none ∧
       Key.as_code (.End false) .Application m = .ok none ∧
       Key.as_code (.Insert false) .Ansi m = .ok none ∧
       Key.as_code (.Insert false) .Application m = .ok none ∧
       Key.as_code (.Delete false) .Ansi m = .ok none ∧
       Key.as_code (.Delete false) .Application m = .ok none) ∧
      (Key.as_code (.MetaLeft true) .Ansi m = .ok none ∧
       Key.as_code (.MetaLeft true) .Application m = .ok none ∧
       Key.as_code (.MetaRight true) .Ansi m = .ok none ∧
       Key.as_code (.MetaRight true) .Application m = .ok none) ∧
      (∀ k : Key, Key.as_code k .Extended m = .error .notYetImplemented) ∧
      (Key.as_code (.NumLock b) .Ansi m = .error .notYetImplemented ∧
       Key.as_code (.NumLock b) .Application m = .error .notYetImplemented ∧
       Key.as_code (.ScrollLock b) .Ansi m = .error .notYetImplemented ∧
       Key.as_code (.ScrollLock b) .Application m = .error .notYetImplemented ∧
       Key.as_code (.Function b i) .Ansi m = .error .notYetImplemented ∧
       Key.as_code (.Function b i) .Application m = .error .notYetImplemented) ∧
      (∀ (f : Fault) (o : Option String),
        (Except.error f : Except Fault (Option String)) ≠ .ok o) := by
  intro m c i b
  refine ⟨?_, ?_, fun k => rfl, ?_, fun f o h => Except.noConfusion h⟩
  · cases b <;>
      exact ⟨rfl, rfl, rfl, rfl, rfl, rfl, rfl, rfl, rfl, rfl, rfl, rfl, rfl,
             rfl, rfl, rfl, rfl, rfl, rfl, rfl, rfl, rfl⟩
  · exact ⟨rfl, rfl, rfl, rfl⟩
  · cases b <;> exact ⟨rfl, rfl, rfl, rfl, rfl, rfl⟩

/-- Witness for C5 at concrete values: the fatal outcome is not the empty
result. -/
theorem encoder_outcomes_distinguishable_witness :
    (Except.error Fault.notYetImplemented : Except Fault (Option String)) ≠ .ok none :=
  (encoder_outcomes_distinguishable Modifiers.new 'a' 1 false).2.2.2.2
    .notYetImplemented none

/-- C6: a bare modifier-key event (left/right shift, ctrl, alt, or caps-lock,
press or release) given to the session dispatcher is forwarded as exactly one
transport write, and the transport's modifier tracking filters it before the
encoder runs, so the write's outcome is the empty result — the
compatible-encoding stage's fatal `unreachable` branch for these keys, shown
in the second part to be exactly what direct encoding would produce, is dead
code under the dispatcher. -/
theorem bare_modifiers_never_reach_encoder :
    ∀ (st : InputState) (tooltip : Option Tooltip) (b press : Bool),
      (dispatchResults st tooltip (.ShiftLeft b) press = [.ok none] ∧
       dispatchResults st tooltip (.ShiftRight b) press = [.ok none] ∧
       dispatchResults st tooltip (.CtrlLeft b) press = [.ok none] ∧
       dispatchResults st tooltip (.CtrlRight b) press = [.ok none] ∧
       dispatchResults st tooltip (.AltLeft b) press = [.ok none] ∧
       dispatchResults st tooltip (.AltRight b) press = [.ok none] ∧
       dispatchResults st tooltip (.CapsLock b) press = [.ok none]) ∧
      (∀ (m : Modifiers) (ansi : Bool),
        Key.compatible_code (.ShiftLeft b) m ansi = .error .unreachableBranch ∧
        Key.compatible_code (.ShiftRight b) m ansi = .error .unreachableBranch ∧
        Key.compatible_code (.CtrlLeft b) m ansi = .error .unreachableBranch ∧
        Key.compatible_code (.CtrlRight b) m ansi = .error .unreachableBranch ∧
        Key.compatible_code (.AltLeft b) m ansi = .error .unreachableBranch ∧
        Key.compatible_code (.AltRight b) m ansi = .error .unreachableBranch ∧
        Key.compatible_code (.CapsLock b) m ansi = .error .unreachableBranch) := by
  intro st tooltip b press
  exact ⟨⟨rfl, rfl, rfl, rfl, rfl, rfl, rfl⟩,
         fun m ansi => ⟨rfl, rfl, rfl, rfl, rfl, rfl, rfl⟩⟩

/-- C4: each input event causes at most one transport write; a Down-arrow press
with a menu-state widget at the cursor that consumes it with index `n` causes
exactly one write — the synthesized selection event, never the raw key; if the
widget declines, the original key and press flag are written once; if it
consumes with nothing to send, nothing is written; with no widget in menu
state, the key is written once. -/
theorem send_input_at_most_one_write :
    (∀ (tooltip : Option Tooltip) (key : Key) (press : Bool),
      (Terminal.send_input tooltip key press).length ≤ 1) ∧
    (∀ (f : Key → Except Bool Nat) (n : Nat), f .DownArrow = .ok n →
      Terminal.send_input (some (.Menu f)) .DownArrow true
          = [(.MenuSelection n, true)] ∧
      (Key.DownArrow, true) ∉ Terminal.send_input (some (.Menu f)) .DownArrow true) ∧
    (∀ (f : Key → Except Bool Nat), f .DownArrow = .error true →
      Terminal.send_input (some (.Menu f)) .DownArrow true = [(.DownArrow, true)]) ∧
    (∀ (f : Key → Except Bool Nat), f .DownArrow = .error false →
      Terminal.send_input (some (.Menu f)) .DownArrow true = []) ∧
    Terminal.send_input none .DownArrow true = [(.DownArrow, true)] ∧
    Terminal.send_input (some .Basic) .DownArrow true = [(.DownArrow, true)] := by
  refine ⟨?_, ?_, ?_, ?_, rfl, rfl⟩
  · intro tooltip key press
    cases key <;> simp only [Terminal.send_input] <;> (repeat' split) <;> simp
  · intro f n h
    constructor
    · simp [Terminal.send_input, Tooltip.interact, h]
    · simp [Terminal.send_input, Tooltip.interact, h]
  · intro f h
    simp [Terminal.send_input, Tooltip.interact, h]
  · intro f h
    simp [Terminal.send_input, Tooltip.interact, h]

/-- Witness for C4 at a concrete widget: a menu that consumes the Down-arrow
press with selection index 3 yields exactly the synthesized selection write. -/
theorem send_input_at_most_one_write_witness :
    Terminal.send_input (some (.Menu (fun _ => .ok 3))) .DownArrow true
        = [(.MenuSelection 3, true)] :=
  (send_input_at_most_one_write.2.1 (fun _ => .ok 3) 3 rfl).1

/-- C8: push-then-pop restores the session exactly; popping with an empty saved
stack is a no-op, so after a single push from an empty stack, a second
consecutive pop leaves the active buffer unchanged. -/
theorem push_then_pop_restores_buffer :
    (∀ (t : Terminal) (sx sy : Bool), (t.push_buffer sx sy).pop_buffer = t) ∧
    (∀ (w h : Nat) (ti : String) (a : CharGrid),
      (Terminal.mk w h ti a []).pop_buffer = Terminal.mk w h ti a []) ∧
    (∀ (w h : Nat) (ti : String) (a : CharGrid) (sx sy : Bool),
      ((Terminal.mk w h ti a []).push_buffer sx sy).pop_buffer.pop_buffer
          = Terminal.mk w h ti a []) := by
  exact ⟨fun t sx sy => rfl, fun w h ti a => rfl, fun w h ti a sx sy => rfl⟩

/-- C9: resizing mutates only the active buffer and the recorded dimensions —
the saved stack is exactly unchanged, so every saved buffer keeps the
dimensions it had when it was pushed. -/
theorem resize_leaves_saved_stack_unchanged :
    ∀ (t : Terminal) (n : Nat),
      (t.set_visible_width n).inactive = t.inactive ∧
      (t.set_visible_height n).inactive = t.inactive ∧
      (t.set_visible_width n).active = t.active.set_width n ∧
      (t.set_visible_width n).width = n ∧
      (t.set_visible_width n).height = t.height ∧
      (t.set_visible_width n).title = t.title ∧
      (t.set_visible_height n).active = t.active.set_height n ∧
      (t.set_visible_height n).height = n ∧
      (t.set_visible_height n).width = t.width ∧
      (t.set_visible_height n).title = t.title ∧
      (t.set_visible_width n).inactive.map CharGrid.width
          = t.inactive.map CharGrid.width ∧
      (t.set_visible_width n).inactive.map CharGrid.height
          = t.inactive.map CharGrid.height ∧
      (t.set_visible_height n).inactive.map CharGrid.width
          = t.inactive.map CharGrid.width ∧
      (t.set_visible_height n).inactive.map CharGrid.height
          = t.inactive.map CharGrid.height := by
  intro t n
  exact ⟨rfl, rfl, rfl, rfl, rfl, rfl, rfl, rfl, rfl, rfl, rfl, rfl, rfl, rfl⟩

/-- C7 fails as stated: the character encoder emits a NUL byte for Ctrl+'@'
(0x40 masked to 0x00), a second non-leading ESC for Alt+ESC, and the
literal-command case emits any byte of its string verbatim, including bytes
with the high bit set — three returned sequences that are not 7-bit-clean
single-leading-ESC strings. -/
theorem wire_format_counterexample :
    Key.as_code (.Char true '@') .Ansi ⟨false, false, true, false⟩
        = .ok (some "\x00") ∧
    wireClean "\x00" = false ∧
    Key.as_code (.Char true '\x1b') .Ansi ⟨false, false, false, true⟩
        = .ok (some "\x1b\x1b") ∧
    wireClean "\x1b\x1b" = false ∧
    Key.as_code (.Cmd "\u0080") .Ansi ⟨false, false, false, false⟩
        = .ok (some "\u0080") ∧
    wireClean "\u0080" = false := by
  decide

/-- C7 amended: for every directional or navigation key press (Up, Down, Left,
Right, Home, End, Page-up, Page-down, Insert, Delete), mode Ansi or
Application, and modifier state, the returned sequence consists only of 7-bit
ASCII bytes, none NUL, with ESC occurring only as the single leading byte; the
character and literal-command encodings are excluded, since they pass the
input character, the masked control byte, or the command string through
unchecked. -/
theorem wire_format_directional_navigation :
    ∀ (s ca ct al : Bool),
      wireCleanOutcome (Key.as_code (.Up true) .Ansi ⟨s, ca, ct, al⟩) = true ∧
      wireCleanOutcome (Key.as_code (.Up true) .Application ⟨s, ca, ct, al⟩) = true ∧
      wireCleanOutcome (Key.as_code (.Down true) .Ansi ⟨s, ca, ct, al⟩) = true ∧
      wireCleanOutcome (Key.as_code (.Down true) .Application ⟨s, ca, ct, al⟩) = true ∧
      wireCleanOutcome (Key.as_code (.Left true) .Ansi ⟨s, ca, ct, al⟩) = true ∧
      wireCleanOutcome (Key.as_code (.Left true) .Application ⟨s, ca, ct, al⟩) = true ∧
      wireCleanOutcome (Key.as_code (.Right true) .Ansi ⟨s, ca, ct, al⟩) = true ∧
      wireCleanOutcome (Key.as_code (.Right true) .Application ⟨s, ca, ct, al⟩) = true ∧
      wireCleanOutcome (Key.as_code (.Home true) .Ansi ⟨s, ca, ct, al⟩) = true ∧
      wireCleanOutcome (Key.as_code (.Home true) .Application ⟨s, ca, ct, al⟩) = true ∧
      wireCleanOutcome (Key.as_code (.End true) .Ansi ⟨s, ca, ct, al⟩) = true ∧
      wireCleanOutcome (Key.as_code (.End true) .Application ⟨s, ca, ct, al⟩) = true ∧
      wireCleanOutcome (Key.as_code (.PageUp true) .Ansi ⟨s, ca, ct, al⟩) = true ∧
      wireCleanOutcome (Key.as_code (.PageUp true) .Application ⟨s, ca, ct, al⟩) = true ∧
      wireCleanOutcome (Key.as_code (.PageDown true) .Ansi ⟨s, ca, ct, al⟩) = true ∧
      wireCleanOutcome (Key.as_code (.PageDown true) .Application ⟨s, ca, ct, al⟩) = true ∧
      wireCleanOutcome (Key.as_code (.Insert true) .Ansi ⟨s, ca, ct, al⟩) = true ∧
      wireCleanOutcome (Key.as_code (.Insert true) .Application ⟨s, ca, ct, al⟩) = true ∧
      wireCleanOutcome (Key.as_code (.Delete true) .Ansi ⟨s, ca, ct, al⟩) = true ∧
      wireCleanOutcome (Key.as_code (.Delete true) .Application ⟨s, ca, ct, al⟩) = true := by
  decide

end Notty
